import Mathlib

/-!
# Verification of terraform-provider-aws resource adapters

Shallow embedding of the CRUD resource adapters in
`internal/service/s3control/access_point.go`,
`internal/service/config/configuration_recorder.go` and
`internal/service/cloudwatchevents/list.go`, together with the small parts
of their dependencies that the control flow inspects (`arn.Parse`,
`strings.SplitN`, `strings.Replace`, `tfawserr` error matching).

Remote API calls are modelled by passing each call's response in as an
explicit argument; `*schema.ResourceData` is modelled as an explicit record
of the resource's attributes plus its identifier and new-resource flag.
Go `*string` / `*bool` pointers become `Option String` / `Option Bool`;
`aws.StringValue` / `aws.BoolValue` become `Option.getD` with the zero value.
-/

namespace TfAws

/-! ## Go string primitives -/

/-- First-occurrence replacement on character lists: `strings.Replace(s, old, new, 1)`.
An empty pattern matches at the start of the string (Go inserts `new` before
the first rune when `old` is empty and the count is 1). -/
def replaceFirstChars (l pat rep : List Char) : List Char :=
  match l with
  | [] => if pat.isPrefixOf ([] : List Char) then rep else []
  | c :: rest =>
    if pat.isPrefixOf (c :: rest) then rep ++ (c :: rest).drop pat.length
    else c :: replaceFirstChars rest pat rep

/-- Go `strings.Replace(s, old, new, 1)`. -/
def stringsReplace1 (s pat rep : String) : String :=
  ⟨replaceFirstChars s.data pat.data rep.data⟩

/-- Go `strings.HasPrefix` (also `String.startsWith`, expressed on the
character lists so that it evaluates by kernel reduction). -/
def strStartsWith (s pre : String) : Bool :=
  pre.data.isPrefixOf s.data

/-- Splitting a character list on a separator character: the pieces between
occurrences of `sep` (Go `strings.Split` with a one-character separator;
`acc` holds the reversed current piece). -/
def splitOnCharAux (sep : Char) : List Char → List Char → List (List Char)
  | [], acc => [acc.reverse]
  | c :: rest, acc =>
    if c = sep then acc.reverse :: splitOnCharAux sep rest []
    else splitOnCharAux sep rest (c :: acc)

/-- Joining character-list pieces with a separator character (Go
`strings.Join`). -/
def joinWith (sep : Char) : List (List Char) → List Char
  | [] => []
  | [l] => l
  | l :: rest => l ++ sep :: joinWith sep rest

/-- Go `strings.SplitN(s, sep, n)` for a one-character separator and
`n ≥ 1`: all the `strings.Split` pieces, except that everything from the
`n`-th piece onwards is kept unsplit in the final element. -/
def goSplitN (s : String) (sep : Char) (n : Nat) : List String :=
  let parts := splitOnCharAux sep s.data []
  if parts.length ≤ n then parts.map fun l => ⟨l⟩
  else (parts.take (n - 1)).map (fun l => ⟨l⟩) ++ [⟨joinWith sep (parts.drop (n - 1))⟩]

/-- Boolean test for `sub` occurring as a contiguous run inside `l`. -/
def containsChars (l sub : List Char) : Bool :=
  match l with
  | [] => sub.isEmpty
  | c :: rest => sub.isPrefixOf (c :: rest) || containsChars rest sub

/-- Go `strings.Contains`. -/
def strContains (s sub : String) : Bool :=
  containsChars s.data sub.data

/-! ## AWS error values and `tfawserr` matching -/

/-- An `awserr.Error`: a code plus a message. -/
structure AWSErr where
  code : String
  message : String
  deriving Repr, DecidableEq

/-- `tfawserr.ErrCodeEquals(err, code)`: the call returned an AWS error whose
code equals `code`. -/
def errCodeEquals (err : Option AWSErr) (code : String) : Bool :=
  match err with
  | some e => e.code == code
  | none => false

/-- `tfawserr.ErrMessageContains(err, code, message)`: the call returned an
AWS error whose code equals `code` and whose message contains `message`. -/
def errMessageContains (err : Option AWSErr) (code message : String) : Bool :=
  match err with
  | some e => e.code == code && strContains e.message message
  | none => false

/-! ## `aws-sdk-go` ARN parsing (`aws/arn/arn.go`) -/

/-- `arn.ARN`: the five variable sections of an ARN. -/
structure GoARN where
  partition : String
  service : String
  region : String
  accountID : String
  resource : String
  deriving Repr, DecidableEq

/-- `arn.Parse`: requires the `arn:` prefix and exactly six colon-separated
sections (the resource section keeps any further colons). -/
def arnParse (s : String) : Option GoARN :=
  if strStartsWith s "arn:" then
    let sections := goSplitN s ':' 6
    if sections.length == 6 then
      some ⟨sections.getD 1 "", sections.getD 2 "", sections.getD 3 "",
            sections.getD 4 "", sections.getD 5 ""⟩
    else none
  else none

/-- `arn.ARN.String()`. -/
def arnString (a : GoARN) : String :=
  "arn:" ++ a.partition ++ ":" ++ a.service ++ ":" ++ a.region ++ ":"
    ++ a.accountID ++ ":" ++ a.resource

/-! ## s3control SDK shapes -/

/-- `s3control.VpcConfiguration`. -/
structure VpcConfiguration where
  VpcId : Option String
  deriving Repr, DecidableEq

/-- `s3control.PublicAccessBlockConfiguration`. -/
structure PublicAccessBlockConfiguration where
  BlockPublicAcls : Option Bool
  BlockPublicPolicy : Option Bool
  IgnorePublicAcls : Option Bool
  RestrictPublicBuckets : Option Bool
  deriving Repr, DecidableEq

/-- One element of the `vpc_configuration` block list: the
`map[string]interface{}` carrying the declared key `vpc_id`. -/
structure VpcBlock where
  vpc_id : String
  deriving Repr, DecidableEq

/-- One element of the `public_access_block_configuration` block list. -/
structure PABBlock where
  block_public_acls : Bool
  block_public_policy : Bool
  ignore_public_acls : Bool
  restrict_public_buckets : Bool
  deriving Repr, DecidableEq

/-! ## Shape translators (access_point.go lines 369–417) -/

/-- `expandS3AccessPointVpcConfiguration`: nil for an empty list or a nil
first element, otherwise a struct built from the first element's map. -/
def expandS3AccessPointVpcConfiguration (vConfig : List (Option VpcBlock)) :
    Option VpcConfiguration :=
  match vConfig with
  | [] => none
  | none :: _ => none
  | some mConfig :: _ => some { VpcId := some mConfig.vpc_id }

/-- `flattenS3AccessPointVpcConfiguration`. -/
def flattenS3AccessPointVpcConfiguration (config : Option VpcConfiguration) :
    List (Option VpcBlock) :=
  match config with
  | none => []
  | some c => [some { vpc_id := c.VpcId.getD "" }]

/-- `expandS3AccessPointPublicAccessBlockConfiguration`. -/
def expandS3AccessPointPublicAccessBlockConfiguration
    (vConfig : List (Option PABBlock)) : Option PublicAccessBlockConfiguration :=
  match vConfig with
  | [] => none
  | none :: _ => none
  | some mConfig :: _ =>
    some { BlockPublicAcls := some mConfig.block_public_acls
           BlockPublicPolicy := some mConfig.block_public_policy
           IgnorePublicAcls := some mConfig.ignore_public_acls
           RestrictPublicBuckets := some mConfig.restrict_public_buckets }

/-- `flattenS3AccessPointPublicAccessBlockConfiguration`. -/
def flattenS3AccessPointPublicAccessBlockConfiguration
    (config : Option PublicAccessBlockConfiguration) : List (Option PABBlock) :=
  match config with
  | none => []
  | some c =>
    [some { block_public_acls := c.BlockPublicAcls.getD false
            block_public_policy := c.BlockPublicPolicy.getD false
            ignore_public_acls := c.IgnorePublicAcls.getD false
            restrict_public_buckets := c.RestrictPublicBuckets.getD false }]

/-- A configuration block list is structurally valid for the one-element
schema: empty, or a single element whose map carries the declared keys. -/
def ValidBlockList {α : Type} (x : List (Option α)) : Prop :=
  x = [] ∨ ∃ m, x = [some m]

/-! ## `AccessPointParseID` (access_point.go lines 352–367) -/

/-- `AccessPointParseID`: ARN parse first (ARN account id, full id as name),
otherwise a two-part colon split with both parts non-empty. -/
def AccessPointParseID (id : String) : Except String (String × String) :=
  match arnParse id with
  | some parsedARN => .ok (parsedARN.accountID, id)
  | none =>
    let parts := goSplitN id ':' 2
    if parts.length != 2 || parts.getD 0 "" == "" || parts.getD 1 "" == "" then
      .error ("unexpected format of ID (" ++ id ++ "), expected ACCOUNT_ID:NAME")
    else
      .ok (parts.getD 0 "", parts.getD 1 "")

/-! ## Resource state and client metadata -/

/-- The slice of `*conns.AWSClient` the adapters read
(`RegionalHostname` is passed to the operations as a separate function). -/
structure AWSClientMeta where
  AccountID : String
  Partition : String
  Region : String
  deriving Repr, DecidableEq

/-- `*schema.ResourceData` for `aws_s3_access_point`: the stored identifier,
the new-resource flag, and the declared attributes. -/
structure AccessPointState where
  id : String
  isNew : Bool
  account_id : String
  arn : String
  bucket : String
  domain_name : String
  has_public_access_policy : Bool
  name : String
  network_origin : String
  policy : String
  public_access_block_configuration : List (Option PABBlock)
  vpc_configuration : List (Option VpcBlock)
  deriving Repr, DecidableEq

/-- `d.GetOk` on a string attribute: `ok` is false when the value is its
zero value, so an empty string reads back as absent. -/
def dGetOk (s : String) : Option String := if s == "" then none else some s

/-- The s3control error code constant `errCodeNoSuchAccessPoint`
(defined in the package's errors file, used at access_point.go line 191;
line 341 matches the same literal). -/
def errCodeNoSuchAccessPoint : String := "NoSuchAccessPoint"

/-! ## s3control API responses -/

/-- `s3control.GetAccessPointOutput` (the fields the adapter reads). -/
structure GetAccessPointOutput where
  Name : Option String
  Bucket : Option String
  NetworkOrigin : Option String
  PublicAccessBlockConfiguration : Option PublicAccessBlockConfiguration
  VpcConfiguration : Option VpcConfiguration
  deriving Repr, DecidableEq

/-- `s3control.CreateAccessPointOutput` (the field the adapter reads). -/
structure CreateAccessPointOutput where
  AccessPointArn : Option String
  deriving Repr, DecidableEq

/-- The responses of the remote calls one `resourceAccessPointRead`
invocation can issue: `GetAccessPoint` (error and output modelled
separately because the code checks a nil output explicitly),
`GetAccessPointPolicy` (success carries `Policy`, a `*string`) and
`GetAccessPointPolicyStatus` (success carries `PolicyStatus.IsPublic`,
a `*bool`). -/
structure AccessPointReadResponses where
  getErr : Option AWSErr
  getOut : Option GetAccessPointOutput
  policyRes : Except AWSErr (Option String)
  statusRes : Except AWSErr (Option Bool)

/-! ## `resourceAccessPointRead` (access_point.go lines 178–289) -/

/-- `resourceAccessPointRead`, with the remote responses passed in and the
`schema.ResourceData` threaded explicitly. Success returns the updated
state; setting the id to `""` is the not-found removal signal. -/
def resourceAccessPointRead (d : AccessPointState) (meta : AWSClientMeta)
    (regionalHostname : String → String) (resp : AccessPointReadResponses) :
    Except String AccessPointState :=
  match AccessPointParseID d.id with
  | .error e => .error e
  | .ok (accountId, name) =>
    if !d.isNew && errCodeEquals resp.getErr errCodeNoSuchAccessPoint then
      .ok { d with id := "" }
    else
      match resp.getErr with
      | some e => .error ("error reading S3 Access Point (" ++ d.id ++ "): " ++ e.message)
      | none =>
        match resp.getOut with
        | none => .error ("error reading S3 Access Point (" ++ d.id ++ "): empty response")
        | some output =>
          let arnBucket : Except String (String × String) :=
            if strStartsWith name "arn:" then
              match arnParse name with
              | none => .error ("error parsing S3 Control Access Point ARN (" ++ name ++ ")")
              | some parsedAccessPointARN =>
                let bucketARN : GoARN :=
                  { accountID := parsedAccessPointARN.accountID
                    partition := parsedAccessPointARN.partition
                    region := parsedAccessPointARN.region
                    resource := stringsReplace1 parsedAccessPointARN.resource
                      ("accesspoint/" ++ output.Name.getD "")
                      ("bucket/" ++ output.Bucket.getD "")
                    service := parsedAccessPointARN.service }
                .ok (name, arnString bucketARN)
            else
              let accessPointARN : GoARN :=
                { accountID := accountId
                  partition := meta.Partition
                  region := meta.Region
                  resource := "accesspoint/" ++ output.Name.getD ""
                  service := "s3" }
              .ok (arnString accessPointARN, output.Bucket.getD "")
          match arnBucket with
          | .error e => .error e
          | .ok (arnAttr, bucketAttr) =>
            let d := { d with
              arn := arnAttr
              bucket := bucketAttr
              account_id := accountId
              domain_name := regionalHostname
                (output.Name.getD "" ++ "-" ++ accountId ++ ".s3-accesspoint")
              name := output.Name.getD ""
              network_origin := output.NetworkOrigin.getD ""
              public_access_block_configuration :=
                flattenS3AccessPointPublicAccessBlockConfiguration
                  output.PublicAccessBlockConfiguration
              vpc_configuration :=
                flattenS3AccessPointVpcConfiguration output.VpcConfiguration }
            let policyStep : Except String AccessPointState :=
              match resp.policyRes with
              | .error e =>
                if errMessageContains (some e) "NoSuchAccessPointPolicy" "" then
                  .ok { d with policy := "" }
                else
                  .error ("error reading S3 Access Point (" ++ d.id ++ ") policy: " ++ e.message)
              | .ok policyOutput => .ok { d with policy := policyOutput.getD "" }
            match policyStep with
            | .error e => .error e
            | .ok d =>
              if strStartsWith name "arn:" then
                .ok { d with has_public_access_policy := false }
              else
                match resp.statusRes with
                | .error e =>
                  if errMessageContains (some e) "NoSuchAccessPointPolicy" "" then
                    .ok { d with has_public_access_policy := false }
                  else
                    .error ("error reading S3 Access Point (" ++ d.id ++ ") policy status: "
                      ++ e.message)
                | .ok isPublic => .ok { d with has_public_access_policy := isPublic.getD false }

/-! ## `resourceAccessPointDelete` (access_point.go lines 327–350) -/

/-- `resourceAccessPointDelete`: `deleteErr` is the `DeleteAccessPoint`
response; `NoSuchAccessPoint` is treated as success. -/
def resourceAccessPointDelete (d : AccessPointState) (deleteErr : Option AWSErr) :
    Except String Unit :=
  match AccessPointParseID d.id with
  | .error e => .error e
  | .ok _ =>
    if errMessageContains deleteErr "NoSuchAccessPoint" "" then .ok ()
    else
      match deleteErr with
      | some e => .error ("error deleting S3 Access Point (" ++ d.id ++ "): " ++ e.message)
      | none => .ok ()

/-! ## `resourceAccessPointUpdate` (access_point.go lines 291–325) -/

/-- A mutating s3control call issued by the access point adapter. -/
inductive S3ControlCall where
  | putAccessPointPolicy (accountId name policy : String)
  | deleteAccessPointPolicy (accountId name : String)
  deriving Repr, DecidableEq

/-- `resourceAccessPointUpdate`: `hasChangePolicy` is `d.HasChange("policy")`;
`putErr` / `delErr` are the responses of the mutation calls (consulted only
if the corresponding call is issued). Returns the list of mutation calls
issued together with the state produced by the trailing
`resourceAccessPointRead`. -/
def resourceAccessPointUpdate (d : AccessPointState) (hasChangePolicy : Bool)
    (putErr delErr : Option AWSErr) (meta : AWSClientMeta)
    (regionalHostname : String → String) (readResp : AccessPointReadResponses) :
    Except String (List S3ControlCall × AccessPointState) :=
  match AccessPointParseID d.id with
  | .error e => .error e
  | .ok (accountId, name) =>
    let mutations : Except String (List S3ControlCall) :=
      if hasChangePolicy then
        match dGetOk d.policy with
        | some v =>
          match putErr with
          | some e => .error ("error putting S3 Access Point (" ++ d.id ++ ") policy: "
              ++ e.message)
          | none => .ok [.putAccessPointPolicy accountId name v]
        | none =>
          match delErr with
          | some e => .error ("error deleting S3 Access Point (" ++ d.id ++ ") policy: "
              ++ e.message)
          | none => .ok [.deleteAccessPointPolicy accountId name]
      else .ok []
    match mutations with
    | .error e => .error e
    | .ok calls =>
      match resourceAccessPointRead d meta regionalHostname readResp with
      | .error e => .error e
      | .ok d2 => .ok (calls, d2)

/-! ## `resourceAccessPointCreate` (access_point.go lines 125–176) -/

/-- The account id used by Create: the `account_id` attribute when set
(non-empty), otherwise the client's account id. -/
def accessPointCreateAccountId (d : AccessPointState) (meta : AWSClientMeta) : String :=
  (dGetOk d.account_id).getD meta.AccountID

/-- `s3control.CreateAccessPointInput` as built by Create. -/
structure CreateAccessPointInput where
  AccountId : Option String
  Bucket : Option String
  Name : Option String
  PublicAccessBlockConfiguration : Option PublicAccessBlockConfiguration
  VpcConfiguration : Option VpcConfiguration
  deriving Repr, DecidableEq

/-- The request struct Create sends (access_point.go lines 134–140). -/
def mkCreateAccessPointInput (d : AccessPointState) (meta : AWSClientMeta) :
    CreateAccessPointInput :=
  { AccountId := some (accessPointCreateAccountId d meta)
    Bucket := some d.bucket
    Name := some d.name
    PublicAccessBlockConfiguration :=
      expandS3AccessPointPublicAccessBlockConfiguration d.public_access_block_configuration
    VpcConfiguration := expandS3AccessPointVpcConfiguration d.vpc_configuration }

/-- `resourceAccessPointCreate`: `createErr` / `createOut` are the
`CreateAccessPoint` response, `putPolicyErr` the `PutAccessPointPolicy`
response (consulted only when a policy is set). On success the identifier
is stored (the access point ARN for Outposts access points, otherwise
`accountId:name`) and the trailing `resourceAccessPointRead` is invoked
on the updated state. -/
def resourceAccessPointCreate (d : AccessPointState) (meta : AWSClientMeta)
    (createErr : Option AWSErr) (createOut : Option CreateAccessPointOutput)
    (putPolicyErr : Option AWSErr) (regionalHostname : String → String)
    (readResp : AccessPointReadResponses) : Except String AccessPointState :=
  let accountId := accessPointCreateAccountId d meta
  let name := d.name
  match createErr with
  | some e => .error ("error creating S3 Control Access Point (" ++ name ++ "): " ++ e.message)
  | none =>
    match createOut with
    | none => .error ("error creating S3 Control Access Point (" ++ name ++ "): empty response")
    | some output =>
      let apArn := output.AccessPointArn.getD ""
      let idAndName : String × String :=
        match arnParse apArn with
        | some parsedARN =>
          if strStartsWith parsedARN.resource "outpost/" then (apArn, apArn)
          else (accountId ++ ":" ++ name, name)
        | none => (accountId ++ ":" ++ name, name)
      let d1 := { d with id := idAndName.1 }
      let putStep : Except String Unit :=
        match dGetOk d.policy with
        | some _ =>
          match putPolicyErr with
          | some e => .error ("error putting S3 Access Point (" ++ d1.id ++ ") policy: "
              ++ e.message)
          | none => .ok ()
        | none => .ok ()
      match putStep with
      | .error e => .error e
      | .ok _ => resourceAccessPointRead d1 meta regionalHostname readResp

/-! ## Configuration recorder (configuration_recorder.go) -/

/-- `configservice.ErrCodeNoSuchConfigurationRecorderException`. -/
def errCodeNoSuchConfigurationRecorderException : String :=
  "NoSuchConfigurationRecorderException"

/-- `configservice.RecordingGroup` (the struct the adapter stores; the
translator pair `expandRecordingGroup`/`flattenRecordingGroup` lives outside
the provided sources, so the `recording_group` attribute is modelled as the
struct itself rather than its flattened block list). -/
structure RecordingGroup where
  AllSupported : Option Bool
  IncludeGlobalResourceTypes : Option Bool
  ResourceTypes : List String
  deriving Repr, DecidableEq

/-- `configservice.ConfigurationRecorder` (the fields the adapter reads). -/
structure ConfigRecorder where
  Name : Option String
  RoleARN : Option String
  RecordingGroup : Option RecordingGroup
  deriving Repr, DecidableEq

/-- `configservice.DescribeConfigurationRecordersOutput`. -/
structure DescribeConfigurationRecordersOutput where
  ConfigurationRecorders : List ConfigRecorder
  deriving Repr, DecidableEq

/-- `*schema.ResourceData` for `aws_config_configuration_recorder`. -/
structure RecorderState where
  id : String
  name : String
  role_arn : String
  recording_group : Option RecordingGroup
  deriving Repr, DecidableEq

/-- `resourceConfigurationRecorderRead` (lines 95–137): a
`NoSuchConfigurationRecorderException` or an empty recorder list clears the
id; more than one recorder is a hard error; exactly one populates the
attributes (`recording_group` only when the remote value is non-nil). -/
def resourceConfigurationRecorderRead (d : RecorderState)
    (resp : Except AWSErr DescribeConfigurationRecordersOutput) :
    Except String RecorderState :=
  match resp with
  | .error e =>
    if errMessageContains (some e) errCodeNoSuchConfigurationRecorderException "" then
      .ok { d with id := "" }
    else
      .error ("Getting Configuration Recorder failed: " ++ e.message)
  | .ok out =>
    match out.ConfigurationRecorders with
    | [] => .ok { d with id := "" }
    | [recorder] =>
      .ok { d with
        name := recorder.Name.getD ""
        role_arn := recorder.RoleARN.getD ""
        recording_group :=
          match recorder.RecordingGroup with
          | some rg => some rg
          | none => d.recording_group }
    | rs => .error ("Expected exactly 1 Configuration Recorder, received " ++ toString rs.length)

/-- `resourceConfigurationRecorderPut` (lines 69–93), serving as both Create
and Update: `putErr` is the `PutConfigurationRecorder` response; on success
the id is set to the `name` attribute and the trailing Read is invoked. -/
def resourceConfigurationRecorderPut (d : RecorderState) (putErr : Option AWSErr)
    (readResp : Except AWSErr DescribeConfigurationRecordersOutput) :
    Except String RecorderState :=
  match putErr with
  | some e => .error ("Creating Configuration Recorder failed: " ++ e.message)
  | none => resourceConfigurationRecorderRead { d with id := d.name } readResp

/-- `resourceConfigurationRecorderDelete` (lines 139–151):
`NoSuchConfigurationRecorderException` from the deletion call is success. -/
def resourceConfigurationRecorderDelete (d : RecorderState)
    (deleteErr : Option AWSErr) : Except String Unit :=
  match deleteErr with
  | some e =>
    if !(errMessageContains (some e) errCodeNoSuchConfigurationRecorderException "") then
      .error ("Deleting Configuration Recorder failed: " ++ e.message)
    else .ok ()
  | none => .ok ()

/-! ## cloudwatchevents pagination (list.go) -/

/-- `events.ListTargetsByRuleInput` (the fields the helper sets). -/
structure ListTargetsByRuleInput where
  Rule : Option String
  Limit : Option Int
  EventBusName : Option String
  NextToken : Option String
  deriving Repr, DecidableEq

/-- `events.ListTargetsByRuleOutput`: a page of targets plus the
continuation cursor. -/
structure ListTargetsByRuleOutput where
  Targets : List String
  NextToken : Option String
  deriving Repr, DecidableEq

/-- A page is the last one when no continuation cursor remains
(`aws.StringValue(output.NextToken) == ""`). -/
def pageIsLast (o : ListTargetsByRuleOutput) : Bool := o.NextToken.getD "" == ""

/-- Modelled from the spec: the generated pagination helper
`ListTargetsByRulePages` is not among the provided sources (it is emitted by
the `listpages` generator named in list.go's `go:generate` line). Per the
spec it repeatedly issues the next-page call, invokes the caller-supplied
per-page callback, and stops when the callback returns false or no cursor
remains. The remote listing is modelled as the finite sequence `pages` of
successive responses; the result is the list of pages actually requested. -/
def ListTargetsByRulePages (pages : List ListTargetsByRuleOutput)
    (fn : ListTargetsByRuleOutput → Bool → Bool) : List ListTargetsByRuleOutput :=
  match pages with
  | [] => []
  | o :: rest =>
    if fn o (pageIsLast o) && !(pageIsLast o) then o :: ListTargetsByRulePages rest fn
    else [o]

/-- `ListAllTargetsForRulePages` (list.go lines 11–22): pins `Limit` to 100,
sets `EventBusName` only for a non-empty bus name, and delegates to the
pagination helper. Returns the request it builds together with the pages
requested. -/
def ListAllTargetsForRulePages (busName ruleName : String)
    (pages : List ListTargetsByRuleOutput)
    (fn : ListTargetsByRuleOutput → Bool → Bool) :
    ListTargetsByRuleInput × List ListTargetsByRuleOutput :=
  let input : ListTargetsByRuleInput :=
    { Rule := some ruleName, Limit := some 100, EventBusName := none, NextToken := none }
  let input := if busName != "" then { input with EventBusName := some busName } else input
  (input, ListTargetsByRulePages pages fn)

/-! ## Helper lemmas -/

/-- Every string contains the empty substring. -/
theorem containsChars_nil (l : List Char) : containsChars l [] = true := by
  cases l <;> simp [containsChars, List.isPrefixOf]

/-- `strContains s "" = true` for every `s`. -/
theorem strContains_empty (s : String) : strContains s "" = true :=
  containsChars_nil s.data

/-- `tfawserr.ErrMessageContains` with an empty message argument is exactly
an error-code comparison. -/
theorem errMessageContains_code (e : AWSErr) (code : String) :
    errMessageContains (some e) code "" = (e.code == code) := by
  simp [errMessageContains, strContains_empty]

/-! ## Claims -/

/-- C1: for every structurally valid configuration block list `x`,
`flatten (expand x) = x`, and for every non-nil remote struct `y` producible
by `expand`, `expand (flatten y) = y`, for both the vpc-configuration and the
public-access-block translator pairs. -/
theorem translators_round_trip :
    (∀ x : List (Option VpcBlock), ValidBlockList x →
      flattenS3AccessPointVpcConfiguration (expandS3AccessPointVpcConfiguration x) = x) ∧
    (∀ (x : List (Option VpcBlock)) (y : VpcConfiguration),
      expandS3AccessPointVpcConfiguration x = some y →
      expandS3AccessPointVpcConfiguration (flattenS3AccessPointVpcConfiguration (some y)) =
        some y) ∧
    (∀ x : List (Option PABBlock), ValidBlockList x →
      flattenS3AccessPointPublicAccessBlockConfiguration
        (expandS3AccessPointPublicAccessBlockConfiguration x) = x) ∧
    (∀ (x : List (Option PABBlock)) (y : PublicAccessBlockConfiguration),
      expandS3AccessPointPublicAccessBlockConfiguration x = some y →
      expandS3AccessPointPublicAccessBlockConfiguration
        (flattenS3AccessPointPublicAccessBlockConfiguration (some y)) = some y) := by
  refine ⟨?_, ?_, ?_, ?_⟩
  · rintro x (rfl | ⟨m, rfl⟩) <;>
      simp [expandS3AccessPointVpcConfiguration, flattenS3AccessPointVpcConfiguration]
  · rintro (_ | ⟨(_ | m), xs⟩) y h <;>
      simp_all [expandS3AccessPointVpcConfiguration, flattenS3AccessPointVpcConfiguration]
    subst h; rfl
  · rintro x (rfl | ⟨m, rfl⟩) <;>
      simp [expandS3AccessPointPublicAccessBlockConfiguration,
        flattenS3AccessPointPublicAccessBlockConfiguration]
  · rintro (_ | ⟨(_ | m), xs⟩) y h <;>
      simp_all [expandS3AccessPointPublicAccessBlockConfiguration,
        flattenS3AccessPointPublicAccessBlockConfiguration]
    subst h; rfl

/-- Witness for C1 at concrete block lists and structs. -/
theorem translators_round_trip_witness :
    flattenS3AccessPointVpcConfiguration
      (expandS3AccessPointVpcConfiguration [some ⟨"vpc-12345"⟩]) = [some ⟨"vpc-12345"⟩] ∧
    expandS3AccessPointVpcConfiguration
      (flattenS3AccessPointVpcConfiguration (some ⟨some "vpc-12345"⟩)) =
        some ⟨some "vpc-12345"⟩ ∧
    flattenS3AccessPointPublicAccessBlockConfiguration
      (expandS3AccessPointPublicAccessBlockConfiguration
        [some ⟨true, true, false, true⟩]) = [some ⟨true, true, false, true⟩] ∧
    expandS3AccessPointPublicAccessBlockConfiguration
      (flattenS3AccessPointPublicAccessBlockConfiguration
        (some ⟨some true, some true, some false, some true⟩)) =
      some ⟨some true, some true, some false, some true⟩ :=
  ⟨translators_round_trip.1 [some ⟨"vpc-12345"⟩] (Or.inr ⟨_, rfl⟩),
   translators_round_trip.2.1 [some ⟨"vpc-12345"⟩] ⟨some "vpc-12345"⟩ rfl,
   translators_round_trip.2.2.1 [some ⟨true, true, false, true⟩] (Or.inr ⟨_, rfl⟩),
   translators_round_trip.2.2.2 [some ⟨true, true, false, true⟩]
     ⟨some true, some true, some false, some true⟩ rfl⟩

/-- C2: `AccessPointParseID` tries an ARN parse first, returning the ARN's
account id with the full input as the name; otherwise it splits on the first
colon, succeeding exactly when both parts are non-empty, and fails with the
`ACCOUNT_ID:NAME` format error otherwise; `"123456789012:my-name"` parses to
`("123456789012", "my-name")`. -/
theorem AccessPointParseID_spec :
    (∀ (id : String) (a : GoARN), arnParse id = some a →
      AccessPointParseID id = .ok (a.accountID, id)) ∧
    (∀ (id p q : String), arnParse id = none → goSplitN id ':' 2 = [p, q] →
      p ≠ "" → q ≠ "" → AccessPointParseID id = .ok (p, q)) ∧
    (∀ id : String, arnParse id = none →
      (∀ p q, goSplitN id ':' 2 = [p, q] → p = "" ∨ q = "") →
      AccessPointParseID id =
        .error ("unexpected format of ID (" ++ id ++ "), expected ACCOUNT_ID:NAME")) ∧
    AccessPointParseID "123456789012:my-name" = .ok ("123456789012", "my-name") := by
  refine ⟨?_, ?_, ?_, by rfl⟩
  · intro id a h
    simp [AccessPointParseID, h]
  · intro id p q harn hsplit hp hq
    simp [AccessPointParseID, harn, hsplit, hp, hq]
  · intro id harn hbad
    rcases hsplit : goSplitN id ':' 2 with _ | ⟨p, _ | ⟨q, _ | _⟩⟩ <;>
      simp [AccessPointParseID, harn, hsplit]
    rcases hbad p q hsplit with rfl | rfl <;> simp

/-- Witness for C2 at concrete identifiers: an Outposts access point ARN,
the plain composite id, and the malformed id from the spec. -/
theorem AccessPointParseID_spec_witness :
    AccessPointParseID "arn:aws:s3-outposts:us-east-1:123456789012:outpost/op-1/accesspoint/ap" =
      .ok ("123456789012",
        "arn:aws:s3-outposts:us-east-1:123456789012:outpost/op-1/accesspoint/ap") ∧
    AccessPointParseID "123456789012:my-name" = .ok ("123456789012", "my-name") ∧
    AccessPointParseID "invalid" =
      .error ("unexpected format of ID (invalid), expected ACCOUNT_ID:NAME") := by
  refine ⟨?_, AccessPointParseID_spec.2.2.2, ?_⟩
  · exact AccessPointParseID_spec.1
      "arn:aws:s3-outposts:us-east-1:123456789012:outpost/op-1/accesspoint/ap"
      ⟨"aws", "s3-outposts", "us-east-1", "123456789012", "outpost/op-1/accesspoint/ap"⟩
      (by rfl)
  · exact AccessPointParseID_spec.2.2.1 "invalid" (by rfl)
      (by intro p q h; simp [goSplitN, splitOnCharAux] at h)

/-- C3: a Read whose remote lookup reports the object absent
(`NoSuchConfigurationRecorderException`, an empty recorder list, or
`NoSuchAccessPoint` for a non-new resource) succeeds and clears the stored
identifier. -/
theorem read_clears_id_when_remote_absent :
    (∀ (d : RecorderState) (e : AWSErr),
      e.code = "NoSuchConfigurationRecorderException" →
      resourceConfigurationRecorderRead d (.error e) = .ok { d with id := "" }) ∧
    (∀ d : RecorderState,
      resourceConfigurationRecorderRead d (.ok ⟨[]⟩) = .ok { d with id := "" }) ∧
    (∀ (d : AccessPointState) (meta : AWSClientMeta) (rh : String → String)
      (resp : AccessPointReadResponses) (e : AWSErr) (acct nm : String),
      d.isNew = false → resp.getErr = some e → e.code = "NoSuchAccessPoint" →
      AccessPointParseID d.id = .ok (acct, nm) →
      resourceAccessPointRead d meta rh resp = .ok { d with id := "" }) := by
  refine ⟨?_, ?_, ?_⟩
  · intro d e he
    simp [resourceConfigurationRecorderRead, errMessageContains_code, he,
      errCodeNoSuchConfigurationRecorderException]
  · intro d
    simp [resourceConfigurationRecorderRead]
  · intro d meta rh resp e acct nm hnew herr hcode hid
    simp [resourceAccessPointRead, hid, hnew, herr, errCodeEquals, hcode,
      errCodeNoSuchAccessPoint]

/-- Witness for C3 at a concrete recorder state, access point state and
absent-object responses. -/
theorem read_clears_id_when_remote_absent_witness :
    resourceConfigurationRecorderRead ⟨"default", "default", "arn:aws:iam::1:role/r", none⟩
      (.error ⟨"NoSuchConfigurationRecorderException", "gone"⟩) =
      .ok ⟨"", "default", "arn:aws:iam::1:role/r", none⟩ ∧
    resourceConfigurationRecorderRead ⟨"default", "default", "arn:aws:iam::1:role/r", none⟩
      (.ok ⟨[]⟩) = .ok ⟨"", "default", "arn:aws:iam::1:role/r", none⟩ ∧
    resourceAccessPointRead
      ⟨"123456789012:ap", false, "", "", "", "", false, "ap", "", "", [], []⟩
      ⟨"123456789012", "aws", "us-east-1"⟩ (fun s => s)
      ⟨some ⟨"NoSuchAccessPoint", "gone"⟩, none, .error ⟨"NoSuchAccessPoint", "gone"⟩,
        .error ⟨"NoSuchAccessPoint", "gone"⟩⟩ =
      .ok ⟨"", false, "", "", "", "", false, "ap", "", "", [], []⟩ :=
  ⟨read_clears_id_when_remote_absent.1 _ ⟨"NoSuchConfigurationRecorderException", "gone"⟩ rfl,
   read_clears_id_when_remote_absent.2.1 _,
   read_clears_id_when_remote_absent.2.2 _ _ _ _ ⟨"NoSuchAccessPoint", "gone"⟩
     "123456789012" "ap" rfl rfl rfl (by rfl)⟩

/-- Counterexample to C3 as universally stated: a Read invocation on a
newly created access point (`IsNewResource`) whose lookup reports
`NoSuchAccessPoint` returns a hard error instead of returning without error,
so the clause holds only for non-new resources (the recorder adapter has no
such guard). -/
theorem read_clears_id_counterexample :
    resourceAccessPointRead
      ⟨"999999999999:new-ap", true, "", "", "", "", false, "new-ap", "", "", [], []⟩
      ⟨"999999999999", "aws", "eu-west-1"⟩ (fun s => s)
      ⟨some ⟨"NoSuchAccessPoint", "absent"⟩, none,
        .error ⟨"NoSuchAccessPoint", "absent"⟩, .error ⟨"NoSuchAccessPoint", "absent"⟩⟩ =
      .error "error reading S3 Access Point (999999999999:new-ap): absent" := by
  rfl

/-- C4: Delete succeeds when the remote deletion reports the object already
absent, so deleting twice in succession (clean first delete, already-absent
second delete) succeeds both times; any other deletion error is surfaced. -/
theorem delete_treats_absent_as_success :
    (∀ (d : AccessPointState) (acct nm : String),
      AccessPointParseID d.id = .ok (acct, nm) →
      resourceAccessPointDelete d none = .ok () ∧
      (∀ e : AWSErr, e.code = "NoSuchAccessPoint" →
        resourceAccessPointDelete d (some e) = .ok ()) ∧
      (∀ e : AWSErr, e.code ≠ "NoSuchAccessPoint" →
        resourceAccessPointDelete d (some e) =
          .error ("error deleting S3 Access Point (" ++ d.id ++ "): " ++ e.message))) ∧
    (∀ d : RecorderState,
      resourceConfigurationRecorderDelete d none = .ok () ∧
      (∀ e : AWSErr, e.code = "NoSuchConfigurationRecorderException" →
        resourceConfigurationRecorderDelete d (some e) = .ok ()) ∧
      (∀ e : AWSErr, e.code ≠ "NoSuchConfigurationRecorderException" →
        resourceConfigurationRecorderDelete d (some e) =
          .error ("Deleting Configuration Recorder failed: " ++ e.message))) := by
  constructor
  · intro d acct nm hid
    refine ⟨?_, ?_, ?_⟩
    · simp [resourceAccessPointDelete, hid, errMessageContains]
    · intro e he
      simp [resourceAccessPointDelete, hid, errMessageContains_code, he]
    · intro e he
      simp [resourceAccessPointDelete, hid, errMessageContains_code, he]
  · intro d
    refine ⟨?_, ?_, ?_⟩
    · simp [resourceConfigurationRecorderDelete]
    · intro e he
      simp [resourceConfigurationRecorderDelete, errMessageContains_code, he,
        errCodeNoSuchConfigurationRecorderException]
    · intro e he
      simp [resourceConfigurationRecorderDelete, errMessageContains_code, he,
        errCodeNoSuchConfigurationRecorderException]

/-- Witness for C4: both deletes at concrete states, for a clean delete, an
already-absent delete, and a surfaced error. -/
theorem delete_treats_absent_as_success_witness :
    resourceAccessPointDelete
      ⟨"123456789012:ap", false, "", "", "", "", false, "ap", "", "", [], []⟩ none = .ok () ∧
    resourceAccessPointDelete
      ⟨"123456789012:ap", false, "", "", "", "", false, "ap", "", "", [], []⟩
      (some ⟨"NoSuchAccessPoint", "gone"⟩) = .ok () ∧
    resourceAccessPointDelete
      ⟨"123456789012:ap", false, "", "", "", "", false, "ap", "", "", [], []⟩
      (some ⟨"AccessDenied", "denied"⟩) =
      .error "error deleting S3 Access Point (123456789012:ap): denied" ∧
    resourceConfigurationRecorderDelete ⟨"default", "default", "r", none⟩ none = .ok () ∧
    resourceConfigurationRecorderDelete ⟨"default", "default", "r", none⟩
      (some ⟨"NoSuchConfigurationRecorderException", "gone"⟩) = .ok () := by
  have h1 := delete_treats_absent_as_success.1
    ⟨"123456789012:ap", false, "", "", "", "", false, "ap", "", "", [], []⟩
    "123456789012" "ap" (by rfl)
  have h2 := delete_treats_absent_as_success.2 ⟨"default", "default", "r", none⟩
  exact ⟨h1.1, h1.2.1 ⟨"NoSuchAccessPoint", "gone"⟩ rfl,
    h1.2.2 ⟨"AccessDenied", "denied"⟩ (by decide), h2.1,
    h2.2.1 ⟨"NoSuchConfigurationRecorderException", "gone"⟩ rfl⟩

/-- C10: the not-found signal is suppressed for new resources: when Read runs
as the trailing read of Create (`IsNewResource`) and the lookup fails with
`NoSuchAccessPoint`, Read surfaces a hard error; the clear-identifier
behaviour applies only to non-new resources. -/
theorem new_resource_not_found_is_error :
    (∀ (d : AccessPointState) (meta : AWSClientMeta) (rh : String → String)
      (resp : AccessPointReadResponses) (e : AWSErr) (acct nm : String),
      d.isNew = true → resp.getErr = some e → e.code = "NoSuchAccessPoint" →
      AccessPointParseID d.id = .ok (acct, nm) →
      resourceAccessPointRead d meta rh resp =
        .error ("error reading S3 Access Point (" ++ d.id ++ "): " ++ e.message)) ∧
    (∀ (d : AccessPointState) (meta : AWSClientMeta) (rh : String → String)
      (resp : AccessPointReadResponses) (e : AWSErr) (acct nm : String),
      d.isNew = false → resp.getErr = some e → e.code = "NoSuchAccessPoint" →
      AccessPointParseID d.id = .ok (acct, nm) →
      resourceAccessPointRead d meta rh resp = .ok { d with id := "" }) := by
  constructor
  · intro d meta rh resp e acct nm hnew herr hcode hid
    simp [resourceAccessPointRead, hid, hnew, herr]
  · intro d meta rh resp e acct nm hnew herr hcode hid
    simp [resourceAccessPointRead, hid, hnew, herr, errCodeEquals, hcode,
      errCodeNoSuchAccessPoint]

/-- Witness for C10: the same absent-object response is a hard error for a
new resource and a state-clearing success for a non-new one. -/
theorem new_resource_not_found_is_error_witness :
    resourceAccessPointRead
      ⟨"123456789012:ap", true, "", "", "", "", false, "ap", "", "", [], []⟩
      ⟨"123456789012", "aws", "us-east-1"⟩ (fun s => s)
      ⟨some ⟨"NoSuchAccessPoint", "gone"⟩, none, .error ⟨"NoSuchAccessPoint", "gone"⟩,
        .error ⟨"NoSuchAccessPoint", "gone"⟩⟩ =
      .error "error reading S3 Access Point (123456789012:ap): gone" ∧
    resourceAccessPointRead
      ⟨"123456789012:ap", false, "", "", "", "", false, "ap", "", "", [], []⟩
      ⟨"123456789012", "aws", "us-east-1"⟩ (fun s => s)
      ⟨some ⟨"NoSuchAccessPoint", "gone"⟩, none, .error ⟨"NoSuchAccessPoint", "gone"⟩,
        .error ⟨"NoSuchAccessPoint", "gone"⟩⟩ =
      .ok ⟨"", false, "", "", "", "", false, "ap", "", "", [], []⟩ :=
  ⟨new_resource_not_found_is_error.1 _ _ _ _ ⟨"NoSuchAccessPoint", "gone"⟩
      "123456789012" "ap" rfl rfl rfl (by rfl),
   new_resource_not_found_is_error.2 _ _ _ _ ⟨"NoSuchAccessPoint", "gone"⟩
      "123456789012" "ap" rfl rfl rfl (by rfl)⟩

/-- C5: Update issues exactly one `PutAccessPointPolicy` call when the policy
changed to a non-empty value, exactly one `DeleteAccessPointPolicy` call when
it changed to empty, no mutation call when nothing changed, and every
successful Update returns the result of the trailing Read. -/
theorem update_issues_minimal_mutations :
    (∀ (d : AccessPointState) (delErr : Option AWSErr) (meta : AWSClientMeta)
      (rh : String → String) (readResp : AccessPointReadResponses)
      (acct nm : String) (d2 : AccessPointState),
      AccessPointParseID d.id = .ok (acct, nm) →
      resourceAccessPointRead d meta rh readResp = .ok d2 →
      d.policy ≠ "" →
      resourceAccessPointUpdate d true none delErr meta rh readResp =
        .ok ([.putAccessPointPolicy acct nm d.policy], d2)) ∧
    (∀ (d : AccessPointState) (putErr : Option AWSErr) (meta : AWSClientMeta)
      (rh : String → String) (readResp : AccessPointReadResponses)
      (acct nm : String) (d2 : AccessPointState),
      AccessPointParseID d.id = .ok (acct, nm) →
      resourceAccessPointRead d meta rh readResp = .ok d2 →
      d.policy = "" →
      resourceAccessPointUpdate d true putErr none meta rh readResp =
        .ok ([.deleteAccessPointPolicy acct nm], d2)) ∧
    (∀ (d : AccessPointState) (putErr delErr : Option AWSErr) (meta : AWSClientMeta)
      (rh : String → String) (readResp : AccessPointReadResponses)
      (acct nm : String) (d2 : AccessPointState),
      AccessPointParseID d.id = .ok (acct, nm) →
      resourceAccessPointRead d meta rh readResp = .ok d2 →
      resourceAccessPointUpdate d false putErr delErr meta rh readResp = .ok ([], d2)) ∧
    (∀ (d : AccessPointState) (hasChange : Bool) (putErr delErr : Option AWSErr)
      (meta : AWSClientMeta) (rh : String → String) (readResp : AccessPointReadResponses)
      (calls : List S3ControlCall) (d2 : AccessPointState),
      resourceAccessPointUpdate d hasChange putErr delErr meta rh readResp =
        .ok (calls, d2) →
      resourceAccessPointRead d meta rh readResp = .ok d2) := by
  refine ⟨?_, ?_, ?_, ?_⟩
  · intro d delErr meta rh readResp acct nm d2 hid hread hpol
    simp [resourceAccessPointUpdate, hid, hread, dGetOk, hpol]
  · intro d putErr meta rh readResp acct nm d2 hid hread hpol
    simp [resourceAccessPointUpdate, hid, hread, dGetOk, hpol]
  · intro d putErr delErr meta rh readResp acct nm d2 hid hread
    simp [resourceAccessPointUpdate, hid, hread]
  · intro d hasChange putErr delErr meta rh readResp calls d2 h
    unfold resourceAccessPointUpdate at h
    split at h
    · exact absurd h (by simp)
    · dsimp only at h
      split at h
      · exact absurd h (by simp)
      · split at h
        · exact absurd h (by simp)
        · rename_i heq
          simp only [Except.ok.injEq, Prod.mk.injEq] at h
          rw [heq, h.2]

/-- Witness for C5 at a concrete state, with a put, a delete, a no-change
Update, and the trailing-read property. -/
theorem update_issues_minimal_mutations_witness :
    resourceAccessPointUpdate
      ⟨"123456789012:ap", false, "", "", "", "", false, "ap", "", "{}", [], []⟩
      true none none ⟨"123456789012", "aws", "us-east-1"⟩ (fun s => s)
      ⟨some ⟨"NoSuchAccessPoint", "gone"⟩, none, .ok none, .ok none⟩ =
      .ok ([.putAccessPointPolicy "123456789012" "ap" "{}"],
        ⟨"", false, "", "", "", "", false, "ap", "", "{}", [], []⟩) ∧
    resourceAccessPointUpdate
      ⟨"123456789012:ap", false, "", "", "", "", false, "ap", "", "", [], []⟩
      true none none ⟨"123456789012", "aws", "us-east-1"⟩ (fun s => s)
      ⟨some ⟨"NoSuchAccessPoint", "gone"⟩, none, .ok none, .ok none⟩ =
      .ok ([.deleteAccessPointPolicy "123456789012" "ap"],
        ⟨"", false, "", "", "", "", false, "ap", "", "", [], []⟩) ∧
    resourceAccessPointUpdate
      ⟨"123456789012:ap", false, "", "", "", "", false, "ap", "", "", [], []⟩
      false none none ⟨"123456789012", "aws", "us-east-1"⟩ (fun s => s)
      ⟨some ⟨"NoSuchAccessPoint", "gone"⟩, none, .ok none, .ok none⟩ =
      .ok ([],
        ⟨"", false, "", "", "", "", false, "ap", "", "", [], []⟩) ∧
    resourceAccessPointRead
      ⟨"123456789012:ap", false, "", "", "", "", false, "ap", "", "", [], []⟩
      ⟨"123456789012", "aws", "us-east-1"⟩ (fun s => s)
      ⟨some ⟨"NoSuchAccessPoint", "gone"⟩, none, .ok none, .ok none⟩ =
      .ok ⟨"", false, "", "", "", "", false, "ap", "", "", [], []⟩ :=
  ⟨update_issues_minimal_mutations.1 _ none _ (fun s => s) _ "123456789012" "ap" _
      (by rfl) (by rfl) (by decide),
   update_issues_minimal_mutations.2.1 _ none _ (fun s => s) _ "123456789012" "ap" _
      (by rfl) (by rfl) rfl,
   update_issues_minimal_mutations.2.2.1 _ none none _ (fun s => s) _ "123456789012" "ap" _
      (by rfl) (by rfl),
   update_issues_minimal_mutations.2.2.2 _ false none none _ (fun s => s) _ [] _
      (by rfl)⟩

/-- C6: Create surfaces a remote error; on success it stores the
remote-assigned ARN as the identifier for an Outposts access point and the
composite `accountId:name` otherwise, and finishes by re-invoking Read on the
updated state. -/
theorem create_derives_id_and_rereads :
    (∀ (d : AccessPointState) (meta : AWSClientMeta) (e : AWSErr)
      (createOut : Option CreateAccessPointOutput) (putPolicyErr : Option AWSErr)
      (rh : String → String) (readResp : AccessPointReadResponses),
      resourceAccessPointCreate d meta (some e) createOut putPolicyErr rh readResp =
        .error ("error creating S3 Control Access Point (" ++ d.name ++ "): "
          ++ e.message)) ∧
    (∀ (d : AccessPointState) (meta : AWSClientMeta) (output : CreateAccessPointOutput)
      (p : GoARN) (rh : String → String) (readResp : AccessPointReadResponses),
      arnParse (output.AccessPointArn.getD "") = some p →
      strStartsWith p.resource "outpost/" = true →
      resourceAccessPointCreate d meta none (some output) none rh readResp =
        resourceAccessPointRead { d with id := output.AccessPointArn.getD "" }
          meta rh readResp) ∧
    (∀ (d : AccessPointState) (meta : AWSClientMeta) (output : CreateAccessPointOutput)
      (rh : String → String) (readResp : AccessPointReadResponses),
      (∀ p, arnParse (output.AccessPointArn.getD "") = some p →
        strStartsWith p.resource "outpost/" = false) →
      resourceAccessPointCreate d meta none (some output) none rh readResp =
        resourceAccessPointRead
          { d with id := accessPointCreateAccountId d meta ++ ":" ++ d.name }
          meta rh readResp) := by
  refine ⟨?_, ?_, ?_⟩
  · intro d meta e createOut putPolicyErr rh readResp
    simp [resourceAccessPointCreate]
  · intro d meta output p rh readResp harn hout
    cases hpol : dGetOk d.policy <;>
      simp [resourceAccessPointCreate, harn, hout, hpol]
  · intro d meta output rh readResp hno
    cases harn : arnParse (output.AccessPointArn.getD "") with
    | none => cases hpol : dGetOk d.policy <;>
        simp [resourceAccessPointCreate, harn, hpol]
    | some p => cases hpol : dGetOk d.policy <;>
        simp [resourceAccessPointCreate, harn, hno p harn, hpol]

/-- Witness for C6: a rejected creation, an Outposts creation storing the
ARN, and a plain creation storing `accountId:name`. -/
theorem create_derives_id_and_rereads_witness :
    resourceAccessPointCreate
      ⟨"", true, "", "", "b", "", false, "ap", "", "", [], []⟩
      ⟨"123456789012", "aws", "us-east-1"⟩ (some ⟨"AccessDenied", "denied"⟩)
      none none (fun s => s) ⟨none, none, .ok none, .ok none⟩ =
      .error "error creating S3 Control Access Point (ap): denied" ∧
    resourceAccessPointCreate
      ⟨"", true, "", "", "b", "", false, "ap", "", "", [], []⟩
      ⟨"123456789012", "aws", "us-east-1"⟩ none
      (some ⟨some "arn:aws:s3-outposts:us-east-1:123456789012:outpost/op-1/accesspoint/ap"⟩)
      none (fun s => s) ⟨none, none, .ok none, .ok none⟩ =
      resourceAccessPointRead
        ⟨"arn:aws:s3-outposts:us-east-1:123456789012:outpost/op-1/accesspoint/ap",
          true, "", "", "b", "", false, "ap", "", "", [], []⟩
        ⟨"123456789012", "aws", "us-east-1"⟩ (fun s => s) ⟨none, none, .ok none, .ok none⟩ ∧
    resourceAccessPointCreate
      ⟨"", true, "", "", "b", "", false, "ap", "", "", [], []⟩
      ⟨"123456789012", "aws", "us-east-1"⟩ none (some ⟨some ""⟩)
      none (fun s => s) ⟨none, none, .ok none, .ok none⟩ =
      resourceAccessPointRead
        ⟨"123456789012:ap", true, "", "", "b", "", false, "ap", "", "", [], []⟩
        ⟨"123456789012", "aws", "us-east-1"⟩ (fun s => s) ⟨none, none, .ok none, .ok none⟩ :=
  ⟨create_derives_id_and_rereads.1 _ _ ⟨"AccessDenied", "denied"⟩ none none (fun s => s) _,
   create_derives_id_and_rereads.2.1 _ _
     ⟨some "arn:aws:s3-outposts:us-east-1:123456789012:outpost/op-1/accesspoint/ap"⟩
     ⟨"aws", "s3-outposts", "us-east-1", "123456789012", "outpost/op-1/accesspoint/ap"⟩
     (fun s => s) _ (by rfl) (by rfl),
   create_derives_id_and_rereads.2.2 _ _ ⟨some ""⟩ (fun s => s) _
     (by intro p hp; simp [arnParse, strStartsWith] at hp)⟩

/-- C7: a configuration recorder Read whose describe call returns more than
one recorder fails with the expected-exactly-1 error reporting the received
count (no state is produced, so no fields are populated). -/
theorem recorder_read_multiple_recorders_is_error :
    ∀ (d : RecorderState) (out : DescribeConfigurationRecordersOutput),
      2 ≤ out.ConfigurationRecorders.length →
      resourceConfigurationRecorderRead d (.ok out) =
        .error ("Expected exactly 1 Configuration Recorder, received "
          ++ toString out.ConfigurationRecorders.length) := by
  intro d out h
  rcases out with ⟨_ | ⟨r1, _ | ⟨r2, rs⟩⟩⟩
  · simp at h
  · simp at h
  · rfl

/-- Witness for C7 at a two-recorder response. -/
theorem recorder_read_multiple_recorders_is_error_witness :
    resourceConfigurationRecorderRead ⟨"default", "default", "r", none⟩
      (.ok ⟨[⟨some "a", some "ra", none⟩, ⟨some "b", some "rb", none⟩]⟩) =
      .error "Expected exactly 1 Configuration Recorder, received 2" :=
  recorder_read_multiple_recorders_is_error ⟨"default", "default", "r", none⟩
    ⟨[⟨some "a", some "ra", none⟩, ⟨some "b", some "rb", none⟩]⟩ (by decide)

/-- C8: when the primary access point lookup succeeds but a secondary lookup
reports `NoSuchAccessPointPolicy`, Read succeeds, mapping an absent policy to
the empty string and an absent policy status to `has_public_access_policy =
false`. -/
theorem read_tolerates_absent_secondary :
    (∀ (d : AccessPointState) (meta : AWSClientMeta) (rh : String → String)
      (resp : AccessPointReadResponses) (acct nm : String) (e : AWSErr)
      (out : GetAccessPointOutput) (b : Option Bool),
      AccessPointParseID d.id = .ok (acct, nm) → strStartsWith nm "arn:" = false →
      resp.getErr = none → resp.getOut = some out →
      resp.policyRes = .error e → e.code = "NoSuchAccessPointPolicy" →
      resp.statusRes = .ok b →
      ∃ d2, resourceAccessPointRead d meta rh resp = .ok d2 ∧
        d2.policy = "" ∧ d2.has_public_access_policy = b.getD false) ∧
    (∀ (d : AccessPointState) (meta : AWSClientMeta) (rh : String → String)
      (resp : AccessPointReadResponses) (acct nm : String)
      (out : GetAccessPointOutput) (pol : Option String) (e : AWSErr),
      AccessPointParseID d.id = .ok (acct, nm) → strStartsWith nm "arn:" = false →
      resp.getErr = none → resp.getOut = some out →
      resp.policyRes = .ok pol →
      resp.statusRes = .error e → e.code = "NoSuchAccessPointPolicy" →
      ∃ d2, resourceAccessPointRead d meta rh resp = .ok d2 ∧
        d2.policy = pol.getD "" ∧ d2.has_public_access_policy = false) ∧
    (∀ (d : AccessPointState) (meta : AWSClientMeta) (rh : String → String)
      (resp : AccessPointReadResponses) (acct nm : String) (e e' : AWSErr)
      (out : GetAccessPointOutput),
      AccessPointParseID d.id = .ok (acct, nm) → strStartsWith nm "arn:" = false →
      resp.getErr = none → resp.getOut = some out →
      resp.policyRes = .error e → e.code = "NoSuchAccessPointPolicy" →
      resp.statusRes = .error e' → e'.code = "NoSuchAccessPointPolicy" →
      ∃ d2, resourceAccessPointRead d meta rh resp = .ok d2 ∧
        d2.policy = "" ∧ d2.has_public_access_policy = false) := by
  refine ⟨?_, ?_, ?_⟩
  · intro d meta rh resp acct nm e out b hid hnm hget hout hpol hcode hstat
    simp [resourceAccessPointRead, hid, hnm, hget, hout, hpol, hcode, hstat,
      errCodeEquals, errMessageContains_code]
  · intro d meta rh resp acct nm out pol e hid hnm hget hout hpol hstat hcode
    simp [resourceAccessPointRead, hid, hnm, hget, hout, hpol, hcode, hstat,
      errCodeEquals, errMessageContains_code]
  · intro d meta rh resp acct nm e e' out hid hnm hget hout hpol hcode hstat hcode'
    simp [resourceAccessPointRead, hid, hnm, hget, hout, hpol, hcode, hstat, hcode',
      errCodeEquals, errMessageContains_code]

/-- Witness for C8 at a concrete successful primary lookup with both
secondary lookups reporting `NoSuchAccessPointPolicy`. -/
theorem read_tolerates_absent_secondary_witness :
    ∃ d2, resourceAccessPointRead
      ⟨"123456789012:ap", false, "", "", "", "", false, "ap", "", "", [], []⟩
      ⟨"123456789012", "aws", "us-east-1"⟩ (fun s => s)
      ⟨none, some ⟨some "ap", some "b", some "VPC", none, some ⟨some "vpc-1"⟩⟩,
        .error ⟨"NoSuchAccessPointPolicy", "none"⟩,
        .error ⟨"NoSuchAccessPointPolicy", "none"⟩⟩ = .ok d2 ∧
      d2.policy = "" ∧ d2.has_public_access_policy = false :=
  read_tolerates_absent_secondary.2.2 _ _ (fun s => s) _ "123456789012" "ap"
    ⟨"NoSuchAccessPointPolicy", "none"⟩ ⟨"NoSuchAccessPointPolicy", "none"⟩
    ⟨some "ap", some "b", some "VPC", none, some ⟨some "vpc-1"⟩⟩
    (by rfl) (by rfl) rfl rfl rfl rfl rfl rfl

/-- C9: `ListAllTargetsForRulePages` pins the request's `Limit` to 100,
includes the event bus name exactly when it is non-empty, and delegates to
the pagination helper, whose iteration visits a prefix of the page sequence,
continues past a page only when the callback returned true and a cursor
remained, and stops early only on a page where the callback returned false
or no cursor remained. -/
theorem list_all_targets_spec :
    (∀ (busName ruleName : String) (pages : List ListTargetsByRuleOutput)
      (fn : ListTargetsByRuleOutput → Bool → Bool),
      (ListAllTargetsForRulePages busName ruleName pages fn).1.Limit = some 100 ∧
      (ListAllTargetsForRulePages busName ruleName pages fn).1.Rule = some ruleName ∧
      (ListAllTargetsForRulePages busName ruleName pages fn).1.EventBusName =
        (if busName = "" then none else some busName) ∧
      (ListAllTargetsForRulePages busName ruleName pages fn).2 =
        ListTargetsByRulePages pages fn) ∧
    (∀ (pages : List ListTargetsByRuleOutput) (fn : ListTargetsByRuleOutput → Bool → Bool),
      ListTargetsByRulePages pages fn <+: pages) ∧
    (∀ (pages : List ListTargetsByRuleOutput) (fn : ListTargetsByRuleOutput → Bool → Bool)
      (o : ListTargetsByRuleOutput), o ∈ (ListTargetsByRulePages pages fn).dropLast →
      fn o (pageIsLast o) = true ∧ pageIsLast o = false) ∧
    (∀ (pages : List ListTargetsByRuleOutput) (fn : ListTargetsByRuleOutput → Bool → Bool),
      (ListTargetsByRulePages pages fn).length < pages.length →
      ∃ o, (ListTargetsByRulePages pages fn).getLast? = some o ∧
        (fn o (pageIsLast o) = false ∨ pageIsLast o = true)) := by
  refine ⟨?_, ?_, ?_, ?_⟩
  · intro busName ruleName pages fn
    by_cases h : busName = "" <;> simp [ListAllTargetsForRulePages, h]
  · intro pages fn
    induction pages with
    | nil => simp [ListTargetsByRulePages]
    | cons p rest ih =>
      simp only [ListTargetsByRulePages]
      split
      · obtain ⟨t, ht⟩ := ih
        exact ⟨t, by simp [ht]⟩
      · exact ⟨rest, rfl⟩
  · intro pages fn
    induction pages with
    | nil => intro o ho; simp [ListTargetsByRulePages] at ho
    | cons p rest ih =>
      intro o ho
      simp only [ListTargetsByRulePages] at ho
      by_cases hc : fn p (pageIsLast p) && !pageIsLast p
      · rw [if_pos hc] at ho
        cases hrun : ListTargetsByRulePages rest fn with
        | nil => rw [hrun] at ho; simp at ho
        | cons q qs =>
          rw [hrun] at ho
          rw [List.dropLast_cons₂] at ho
          rcases List.mem_cons.mp ho with rfl | ho'
          · have hc' : fn o (pageIsLast o) = true ∧ pageIsLast o = false := by
              simpa using hc
            exact hc'
          · exact ih o (by rw [hrun]; exact ho')
      · rw [if_neg hc] at ho
        simp at ho
  · intro pages fn
    induction pages with
    | nil => intro h; simp [ListTargetsByRulePages] at h
    | cons p rest ih =>
      intro h
      simp only [ListTargetsByRulePages] at h ⊢
      by_cases hc : fn p (pageIsLast p) && !pageIsLast p
      · rw [if_pos hc] at h ⊢
        have h' : (ListTargetsByRulePages rest fn).length < rest.length := by
          simpa using h
        obtain ⟨o, h1, h2⟩ := ih h'
        cases hrun : ListTargetsByRulePages rest fn with
        | nil => rw [hrun] at h1; simp at h1
        | cons q qs =>
          refine ⟨o, ?_, h2⟩
          rw [hrun] at h1
          rw [List.getLast?_cons_cons]
          exact h1
      · rw [if_neg hc]
        cases hl : pageIsLast p with
        | true => exact ⟨p, rfl, Or.inr hl⟩
        | false =>
          have hf : fn p (pageIsLast p) = false := by
            cases hfv : fn p (pageIsLast p) with
            | false => rfl
            | true => exact absurd (by rw [hfv, hl]; rfl) hc
          exact ⟨p, rfl, Or.inl hf⟩

/-- Witness for C9: the request fields at a concrete bus and rule, and the
spec's three-page listing whose callback rejects the second page: the run
visits exactly the first two pages and its last visited page is one the
callback rejected. -/
theorem list_all_targets_spec_witness :
    (ListAllTargetsForRulePages "bus" "rule"
      [⟨["t1"], some "a"⟩, ⟨["t2"], some "b"⟩, ⟨["t3"], none⟩]
      (fun o _ => o.Targets != ["t2"])).1.Limit = some 100 ∧
    (ListAllTargetsForRulePages "bus" "rule"
      [⟨["t1"], some "a"⟩, ⟨["t2"], some "b"⟩, ⟨["t3"], none⟩]
      (fun o _ => o.Targets != ["t2"])).1.EventBusName = some "bus" ∧
    (ListAllTargetsForRulePages "" "rule"
      [⟨["t1"], some "a"⟩, ⟨["t2"], some "b"⟩, ⟨["t3"], none⟩]
      (fun o _ => o.Targets != ["t2"])).1.EventBusName = none ∧
    ListTargetsByRulePages
      [⟨["t1"], some "a"⟩, ⟨["t2"], some "b"⟩, ⟨["t3"], none⟩]
      (fun o _ => o.Targets != ["t2"]) = [⟨["t1"], some "a"⟩, ⟨["t2"], some "b"⟩] ∧
    ((fun (o : ListTargetsByRuleOutput) (_ : Bool) => o.Targets != ["t2"])
        ⟨["t1"], some "a"⟩ (pageIsLast ⟨["t1"], some "a"⟩) = true ∧
      pageIsLast ⟨["t1"], some "a"⟩ = false) ∧
    (∃ o, (ListTargetsByRulePages
        [⟨["t1"], some "a"⟩, ⟨["t2"], some "b"⟩, ⟨["t3"], none⟩]
        (fun o _ => o.Targets != ["t2"])).getLast? = some o ∧
      ((fun (o : ListTargetsByRuleOutput) (_ : Bool) => o.Targets != ["t2"])
          o (pageIsLast o) = false ∨ pageIsLast o = true)) := by
  refine ⟨(list_all_targets_spec.1 "bus" "rule" _ _).1,
    ((list_all_targets_spec.1 "bus" "rule" _ _).2.2.1).trans (by simp),
    ((list_all_targets_spec.1 "" "rule" _ _).2.2.1).trans (by simp),
    by decide,
    list_all_targets_spec.2.2.1
      [⟨["t1"], some "a"⟩, ⟨["t2"], some "b"⟩, ⟨["t3"], none⟩]
      (fun o _ => o.Targets != ["t2"]) ⟨["t1"], some "a"⟩ (by decide),
    list_all_targets_spec.2.2.2
      [⟨["t1"], some "a"⟩, ⟨["t2"], some "b"⟩, ⟨["t3"], none⟩]
      (fun o _ => o.Targets != ["t2"]) (by decide)⟩

end TfAws
